import Mathlib

/-!
Verification of the analytic test-grid synthesizers and the data-fetch
scripts of the parcels repository excerpt, over an exact-real shallow
embedding of the numpy/python code.

Embedding conventions:
* numpy float arrays are embedded as total functions `ℕ → ℝ` (axes) or
  `ℕ → ℕ → ℕ → ℝ` (fields) over exact reals, with an explicit length
  field recording each axis/array extent; cells never written by the
  source stay at the `np.zeros` initial value `0`.
* `np.linspace` and `np.arange` are embedded by their documented sample
  formulas (`linspace`, `arange`, `arangeLen` below).
* python exceptions (numpy's `ValueError` on a negative sample count)
  are embedded with `Except`.
* the code is Python 2 (`print` statements, `urllib2`), so `/` between
  two ints is floor division; such divisors are embedded as ℕ floor
  quotients, while float-context arithmetic is embedded over ℝ.
* the filesystem seen by `pull_data.py` is a map from path to byte
  content, the network a map from url to byte content; each download
  is counted.
-/

namespace Parcels

/-- Embedding of `np.linspace start stop num`: sample `i` (for `i < num`) is
`start + (stop - start) * i / (num - 1)`; with `num = 1` the single
sample is `start`. -/
noncomputable def linspace (start stop : ℝ) (num : ℕ) : ℕ → ℝ :=
  fun i => if num ≤ 1 then start else start + (stop - start) * i / (num - 1)

/-- Number of samples of `np.arange start stop step`:
`max 0 ⌈(stop - start) / step⌉`. -/
noncomputable def arangeLen (start stop step : ℝ) : ℕ :=
  (max 0 ⌈(stop - start) / step⌉).toNat

/-- Sample `k` of `np.arange start stop step`. -/
noncomputable def arange (start step : ℝ) (k : ℕ) : ℝ :=
  start + k * step

/-- One field array as handed to `Grid.from_data`: the data cube plus the
shape it was allocated with (`np.zeros((lon.size, lat.size, time.size))`)
and the coordinate axes it is defined over. -/
structure FieldArr where
  xdim : ℕ
  ydim : ℕ
  tdim : ℕ
  lon : ℕ → ℝ
  lat : ℕ → ℝ
  val : ℕ → ℕ → ℕ → ℝ

/-- The grid assembled by `Grid.from_data(U, lonU, latU, V, lonV, latV,
depth, time, field_data)`: U and V each carry their own axes, `P` is the
optional extra field of `field_data`. -/
structure RectGrid where
  U : FieldArr
  V : FieldArr
  P : Option FieldArr
  depthLen : ℕ
  depth : ℕ → ℝ
  timeLen : ℕ
  time : ℕ → ℝ

namespace MultiFilename

/-- Generator `simple_grid` from `tests/test_multi_filename.py`:
`time = np.arange(startday*86400, (startday+ndays)*86400, 86400)`,
`lon = np.linspace(0, 4, xdim)`, `lat = np.linspace(45, 52, ydim)`,
`U[:, :, t] = time[t]/86400` for every time index, `V` and `P` left at
their `np.zeros` value. -/
noncomputable def simple_grid (xdim ydim : ℕ) (ndays startday : ℤ) : RectGrid :=
  let tdim := arangeLen ((startday : ℝ) * 86400) (((startday + ndays : ℤ) : ℝ) * 86400) 86400
  let time : ℕ → ℝ := arange ((startday : ℝ) * 86400) 86400
  let lon := linspace 0 4 xdim
  let lat := linspace 45 52 ydim
  let Uval : ℕ → ℕ → ℕ → ℝ := fun i j t =>
    if i < xdim ∧ j < ydim ∧ t < tdim then time t / 86400 else 0
  { U := ⟨xdim, ydim, tdim, lon, lat, Uval⟩
    V := ⟨xdim, ydim, tdim, lon, lat, fun _ _ _ => 0⟩
    P := some ⟨xdim, ydim, tdim, lon, lat, fun _ _ _ => 0⟩
    depthLen := 1
    depth := fun _ => 0
    timeLen := tdim
    time := time }

end MultiFilename

namespace StommelFD

/-- Amplitude `A = 100` of `stommel_grid` in `tests/test_stommel.py`. -/
noncomputable def A : ℝ := 100

/-- Dissipation `eps = 0.05` (a hardcoded constant, not a parameter). -/
noncomputable def eps : ℝ := 0.05

/-- Zonal domain width `a = 10000`. -/
noncomputable def a : ℝ := 10000

/-- Meridional domain width `b = 10000`. -/
noncomputable def b : ℝ := 10000

/-- The domain width `a = 10000` as the Python int it is in the source,
used by the divisor `2 * a / xdim` of the `V` loop. -/
def aInt : ℕ := 10000

/-- The domain width `b = 10000` as the Python int it is in the source,
used by the divisor `2 * b / ydim` of the `U` loop. -/
def bInt : ℕ := 10000

/-- Constant `l1 = (-1 + math.sqrt(1 + 4*math.pi**2*eps**2)) / (2*eps)`. -/
noncomputable def l1 : ℝ :=
  (-1 + Real.sqrt (1 + 4 * Real.pi ^ 2 * eps ^ 2)) / (2 * eps)

/-- Constant `l2 = (-1 - math.sqrt(1 + 4*math.pi**2*eps**2)) / (2*eps)`. -/
noncomputable def l2 : ℝ :=
  (-1 - Real.sqrt (1 + 4 * Real.pi ^ 2 * eps ^ 2)) / (2 * eps)

/-- Constant `c1 = (1 - math.exp(l2)) / (math.exp(l2) - math.exp(l1))`. -/
noncomputable def c1 : ℝ := (1 - Real.exp l2) / (Real.exp l2 - Real.exp l1)

/-- Constant `c2 = -(1 + c1)`. -/
noncomputable def c2 : ℝ := -(1 + c1)

/-- The `P` cube after the first loop nest of `stommel_grid`
(`tests/test_stommel.py` lines 47-52): for every `i < xdim`, `j < ydim`,
`t < 2`, `P[i,j,t] = A*(c1*exp(l1*xi) + c2*exp(l2*xi) + 1)*sin(pi*yi)`
with `xi = lon[i]/a`, `yi = lat[j]/b`; cells outside stay at `0`. -/
noncomputable def P (xdim ydim : ℕ) : ℕ → ℕ → ℕ → ℝ :=
  fun i j t =>
    if i < xdim ∧ j < ydim ∧ t < 2 then
      A * (c1 * Real.exp (l1 * (linspace 0 a xdim i / a))
           + c2 * Real.exp (l2 * (linspace 0 a xdim i / a)) + 1)
        * Real.sin (Real.pi * (linspace 0 b ydim j / b))
    else 0

/-- The `V` cube after the second loop nest (lines 53-55): the loop
`for i in range(lon.size-2)` writes `V[i+1,j,t]`, so exactly the cells
with `1 ≤ i ∧ i+1 < xdim` are filled, with the centered zonal
difference of `P`; all others stay at the `np.zeros` value `0`.
The divisor `2 * a / xdim` is Python 2 integer floor division
(`20000 // xdim`, both operands ints and no true-division import), so
it is embedded as the ℕ floor quotient cast to ℝ. For `xdim > 20000`
the floored quotient is 0 and the float source produces non-finite
values that ℝ cannot represent; theorems evaluating this divisor
therefore assume `xdim ≤ 20000`. -/
noncomputable def V (xdim ydim : ℕ) : ℕ → ℕ → ℕ → ℝ :=
  fun i j t =>
    if 1 ≤ i ∧ i + 1 < xdim ∧ j < ydim ∧ t < 2 then
      (P xdim ydim (i + 1) j t - P xdim ydim (i - 1) j t) / ((2 * aInt / xdim : ℕ) : ℝ)
    else 0

/-- The `U` cube after the third loop nest (lines 56-58): the loop
`for j in range(lat.size-2)` writes `U[i,j+1,t]`, so exactly the cells
with `1 ≤ j ∧ j+1 < ydim` are filled, with minus the centered
meridional difference of `P`; all others stay at `0`. As in `V`, the
divisor `2 * b / ydim` is Python 2 integer floor division, embedded as
the ℕ floor quotient cast to ℝ (faithful for `ydim ≤ 20000`). -/
noncomputable def U (xdim ydim : ℕ) : ℕ → ℕ → ℕ → ℝ :=
  fun i j t =>
    if i < xdim ∧ 1 ≤ j ∧ j + 1 < ydim ∧ t < 2 then
      -(P xdim ydim i (j + 1) t - P xdim ydim i (j - 1) t) / ((2 * bInt / ydim : ℕ) : ℝ)
    else 0

/-- Generator `stommel_grid` from `tests/test_stommel.py`: two time samples
`np.linspace(0, 100000*86400, 2)`, depth `np.zeros(1)`, and the three
cubes above, assembled by `Grid.from_data(U, lon, lat, V, lon, lat,
depth, time, field_data={'P': P})`. -/
noncomputable def stommel_grid (xdim ydim : ℕ) : RectGrid :=
  let lon := linspace 0 a xdim
  let lat := linspace 0 b ydim
  { U := ⟨xdim, ydim, 2, lon, lat, U xdim ydim⟩
    V := ⟨xdim, ydim, 2, lon, lat, V xdim ydim⟩
    P := some ⟨xdim, ydim, 2, lon, lat, P xdim ydim⟩
    depthLen := 1
    depth := fun _ => 0
    timeLen := 2
    time := linspace 0 (100000 * 86400) 2 }

end StommelFD

namespace StommelExp

/-- Constant `day = 11.6` in `stommel_grid` of `examples/test_stommel.py`. -/
noncomputable def day : ℝ := 11.6

/-- Constant `r = 1 / (day * 86400)`. -/
noncomputable def r : ℝ := 1 / (day * 86400)

/-- Constant `beta = 2e-11`. -/
noncomputable def beta : ℝ := 2e-11

/-- Constant `a = 2000000`. -/
noncomputable def a : ℝ := 2000000

/-- Constant `e_s = r / (beta * a)`. -/
noncomputable def e_s : ℝ := r / (beta * a)

/-- The `U` cube of `stommel_grid` in `examples/test_stommel.py`
(lines 54-59): for every `i < xdim`, `j < ydim`, `t < 2`,
`U[i,j,t] = -(1 - exp(-lon[i]*pi/180/e_s) - lon[i]*pi/180) * pi**2
* cos(pi**2*lat[j]/180)` with `lon = np.linspace(0, 60, xdim)` and
`lat = np.linspace(0, 60, ydim)`. -/
noncomputable def U (xdim ydim : ℕ) : ℕ → ℕ → ℕ → ℝ :=
  fun i j t =>
    if i < xdim ∧ j < ydim ∧ t < 2 then
      -(1 - Real.exp (-(linspace 0 60 xdim i) * Real.pi / 180 / e_s)
          - linspace 0 60 xdim i * Real.pi / 180) * Real.pi ^ 2
        * Real.cos (Real.pi ^ 2 * linspace 0 60 ydim j / 180)
    else 0

/-- The `V` cube (lines 60-61): `V[i,j,t] = (exp(-lon[i]*pi/180/e_s)/e_s
- 1) * pi * sin(pi**2*lat[j]/180)`. -/
noncomputable def V (xdim ydim : ℕ) : ℕ → ℕ → ℕ → ℝ :=
  fun i j t =>
    if i < xdim ∧ j < ydim ∧ t < 2 then
      (Real.exp (-(linspace 0 60 xdim i) * Real.pi / 180 / e_s) / e_s - 1)
        * Real.pi * Real.sin (Real.pi ^ 2 * linspace 0 60 ydim j / 180)
    else 0

/-- Generator `stommel_grid` from `examples/test_stommel.py`: two time samples,
depth `np.zeros(1)`, assembled by `Grid.from_data(U, lon, lat, V, lon,
lat, depth, time)` (no `field_data`, hence no `P`). -/
noncomputable def stommel_grid (xdim ydim : ℕ) : RectGrid :=
  let lon := linspace 0 60 xdim
  let lat := linspace 0 60 ydim
  { U := ⟨xdim, ydim, 2, lon, lat, U xdim ydim⟩
    V := ⟨xdim, ydim, 2, lon, lat, V xdim ydim⟩
    P := none
    depthLen := 1
    depth := fun _ => 0
    timeLen := 2
    time := linspace 0 (100000 * 86400) 2 }

end StommelExp

/-- Grid construction guarded by numpy's own parameter check: each
synthesizer's first numpy call on a dimension is `np.linspace(..., num)`,
which raises `ValueError` when `num` is negative and accepts `0`
(returning an empty axis). None of the python generators perform any
validation of their own. -/
noncomputable def checked (build : ℕ → ℕ → RectGrid) (xdim ydim : ℤ) :
    Except String RectGrid :=
  if xdim < 0 ∨ ydim < 0 then
    Except.error "ValueError: Number of samples must be non-negative."
  else
    Except.ok (build xdim.toNat ydim.toNat)

/-- Whether an `Except` result is a success. -/
def exceptOk {ε α : Type} : Except ε α → Bool
  | Except.ok _ => true
  | Except.error _ => false

namespace PullData

/-- The local filesystem as seen by `pull_data.py`: a map from file
path to byte content (`none` = file absent). -/
def FS : Type := String → Option (List ℕ)

/-- The network: a map from url to the bytes `urllib2.urlopen(...).read()`
would return. -/
def Net : Type := String → List ℕ

/-- Writing `content` to `p` (`open(..., 'wb')` followed by `write`). -/
def fsWrite (fs : FS) (p : String) (content : List ℕ) : FS :=
  fun q => if q = p then some content else fs q

/-- One iteration of the download loop shared by the three `import_*`
functions of `scripts/pull_data.py`: if `path/filename` exists, do
nothing; otherwise fetch `url/filename` from the network and write it,
counting one network request. -/
def fetchOne (net : Net) (url path fn : String) (st : FS × ℕ) : FS × ℕ :=
  match st.1 (path ++ "/" ++ fn) with
  | some _ => st
  | none => (fsWrite st.1 (path ++ "/" ++ fn) (net (url ++ "/" ++ fn)), st.2 + 1)

/-- The whole download loop: fold `fetchOne` over the file list,
starting from the given filesystem with zero requests made. -/
def fetchAll (net : Net) (url path : String) (filenames : List String)
    (fs : FS) : FS × ℕ :=
  filenames.foldl (fun st fn => fetchOne net url path fn st) (fs, 0)

/-- File list of `import_MovingEddies_example`. -/
def movingEddiesFilenames : List String :=
  ["moving_eddiesP.nc", "moving_eddiesU.nc", "moving_eddiesV.nc"]

/-- Function `import_MovingEddies_example` from `scripts/pull_data.py`, acting on
a filesystem and returning the new filesystem together with the number
of network requests performed. -/
def import_MovingEddies_example (net : Net) (fs : FS) : FS × ℕ :=
  fetchAll net "http://oceanparcels.org/examples-data/MovingEddies_data"
    "examples/MovingEddies_data" movingEddiesFilenames fs

/-- Days per month of 2002 (not a leap year), driving the
`datetime(2002,1,1)` to `datetime(2003,1,1)` loop of
`import_globcurrent_example`. -/
def monthDays2002 : List ℕ := [31, 28, 31, 30, 31, 30, 31, 31, 30, 31, 30, 31]

/-- Two-digit zero-padded rendering used by `strftime("%Y%m%d")`. -/
def pad2 (n : ℕ) : String :=
  if n < 10 then "0" ++ toString n else toString n

/-- File list of `import_globcurrent_example`: one file per day of 2002,
named `dt.strftime("%Y%m%d") + "000000-GLOBCURRENT-..."`. -/
def globcurrentFilenames : List String :=
  ((List.range 12).map (fun m =>
    (List.range (monthDays2002.getD m 0)).map (fun d =>
      "2002" ++ pad2 (m + 1) ++ pad2 (d + 1)
        ++ "000000-GLOBCURRENT-L4-CUReul_hs-ALT_SUM-v02.0-fv01.0.nc"))).flatten

/-- Function `import_globcurrent_example` from `scripts/pull_data.py`. -/
def import_globcurrent_example (net : Net) (fs : FS) : FS × ℕ :=
  fetchAll net "http://oceanparcels.org/examples-data/GlobCurrent_example_data"
    "examples/GlobCurrent_example_data" globcurrentFilenames fs

/-- File list of `import_OFAM_example`. -/
def ofamFilenames : List String := ["OFAM_simple_U.nc", "OFAM_simple_V.nc"]

/-- Function `import_OFAM_example` from `scripts/pull_data.py`. -/
def import_OFAM_example (net : Net) (fs : FS) : FS × ℕ :=
  fetchAll net "http://oceanparcels.org/examples-data/OFAM_example_data"
    "examples/OFAM_example_data" ofamFilenames fs

end PullData

namespace SpecSide

/-- Spec-side statement (written from the specification's words, to be
compared with the source embedding): the streamfunction-form stommel
grid computes `P[i,j,t] = A*(c1*exp(l1*xi) + c2*exp(l2*xi) + 1)*sin(pi*yi)`
with `xi = lon[i]/a`, `yi = lat[j]/b`, `A = 100`, `eps = 0.05`,
`a = b = 10000`, `l1 = (-1+sqrt(1+4*pi^2*eps^2))/(2*eps)`,
`l2 = (-1-sqrt(1+4*pi^2*eps^2))/(2*eps)`,
`c1 = (1-exp(l2))/(exp(l2)-exp(l1))`, `c2 = -(1+c1)`, and derives the
velocities by centered differencing of `P`. -/
def stommelFD_property (xdim ydim t : ℕ) : Prop :=
  let sq := Real.sqrt (1 + 4 * Real.pi ^ 2 * (0.05 : ℝ) ^ 2)
  let sl1 := (-1 + sq) / (2 * 0.05)
  let sl2 := (-1 - sq) / (2 * 0.05)
  let sc1 := (1 - Real.exp sl2) / (Real.exp sl2 - Real.exp sl1)
  let sc2 := -(1 + sc1)
  (∀ i j, i < xdim → j < ydim →
    StommelFD.P xdim ydim i j t =
      100 * (sc1 * Real.exp (sl1 * (linspace 0 10000 xdim i / 10000))
             + sc2 * Real.exp (sl2 * (linspace 0 10000 xdim i / 10000)) + 1)
        * Real.sin (Real.pi * (linspace 0 10000 ydim j / 10000)))
  ∧ (∀ i j, i + 3 ≤ xdim → j < ydim →
      StommelFD.V xdim ydim (i + 1) j t =
        (StommelFD.P xdim ydim (i + 2) j t - StommelFD.P xdim ydim i j t)
          / (2 * 10000 / xdim))
  ∧ (∀ i j, i < xdim → j + 3 ≤ ydim →
      StommelFD.U xdim ydim i (j + 1) t =
        -(StommelFD.P xdim ydim i (j + 2) t - StommelFD.P xdim ydim i j t)
          / (2 * 10000 / ydim))

/-- Spec-side statement amended for Python 2 arithmetic: identical to
`stommelFD_property` except that the divisors `2*a/xdim` and `2*b/ydim`
are the integer floor quotients `20000 // xdim` and `20000 // ydim`
that the Python 2 source actually computes. -/
def stommelFD_property_floored (xdim ydim t : ℕ) : Prop :=
  let sq := Real.sqrt (1 + 4 * Real.pi ^ 2 * (0.05 : ℝ) ^ 2)
  let sl1 := (-1 + sq) / (2 * 0.05)
  let sl2 := (-1 - sq) / (2 * 0.05)
  let sc1 := (1 - Real.exp sl2) / (Real.exp sl2 - Real.exp sl1)
  let sc2 := -(1 + sc1)
  (∀ i j, i < xdim → j < ydim →
    StommelFD.P xdim ydim i j t =
      100 * (sc1 * Real.exp (sl1 * (linspace 0 10000 xdim i / 10000))
             + sc2 * Real.exp (sl2 * (linspace 0 10000 xdim i / 10000)) + 1)
        * Real.sin (Real.pi * (linspace 0 10000 ydim j / 10000)))
  ∧ (∀ i j, i + 3 ≤ xdim → j < ydim →
      StommelFD.V xdim ydim (i + 1) j t =
        (StommelFD.P xdim ydim (i + 2) j t - StommelFD.P xdim ydim i j t)
          / ((2 * 10000 / xdim : ℕ) : ℝ))
  ∧ (∀ i j, i < xdim → j + 3 ≤ ydim →
      StommelFD.U xdim ydim i (j + 1) t =
        -(StommelFD.P xdim ydim i (j + 2) t - StommelFD.P xdim ydim i j t)
          / ((2 * 10000 / ydim : ℕ) : ℝ))

/-- Spec-side statement (written from the specification's words): the
exponential-boundary-layer stommel grid computes
`U[i,j,t] = -(1 - exp(-lon[i]*pi/180/e_s) - lon[i]*pi/180) * pi^2
* cos(pi^2*lat[j]/180)` and `V[i,j,t] = (exp(-lon[i]*pi/180/e_s)/e_s - 1)
* pi * sin(pi^2*lat[j]/180)` with `e_s = r/(beta*a)`, `r = 1/(11.6*86400)`,
`beta = 2e-11`, `a = 2e6`, identically across the two time samples. -/
def stommelExp_property (xdim ydim : ℕ) : Prop :=
  let es := (1 / ((11.6 : ℝ) * 86400)) / ((2e-11 : ℝ) * 2000000)
  (∀ i j t, i < xdim → j < ydim → t < 2 →
    StommelExp.U xdim ydim i j t =
      -(1 - Real.exp (-(linspace 0 60 xdim i) * Real.pi / 180 / es)
          - linspace 0 60 xdim i * Real.pi / 180) * Real.pi ^ 2
        * Real.cos (Real.pi ^ 2 * linspace 0 60 ydim j / 180))
  ∧ (∀ i j t, i < xdim → j < ydim → t < 2 →
      StommelExp.V xdim ydim i j t =
        (Real.exp (-(linspace 0 60 xdim i) * Real.pi / 180 / es) / es - 1)
          * Real.pi * Real.sin (Real.pi ^ 2 * linspace 0 60 ydim j / 180))
  ∧ (∀ i j, StommelExp.U xdim ydim i j 0 = StommelExp.U xdim ydim i j 1
        ∧ StommelExp.V xdim ydim i j 0 = StommelExp.V xdim ydim i j 1)

end SpecSide

/-! ## Helper lemmas -/

lemma stommelFD_P_time_indep (xdim ydim i j : ℕ) {t t' : ℕ}
    (ht : t < 2) (ht' : t' < 2) :
    StommelFD.P xdim ydim i j t = StommelFD.P xdim ydim i j t' := by
  simp only [StommelFD.P]
  by_cases h : i < xdim ∧ j < ydim
  · rw [if_pos ⟨h.1, h.2, ht⟩, if_pos ⟨h.1, h.2, ht'⟩]
  · rw [if_neg (by tauto), if_neg (by tauto)]

lemma stommelFD_V_time_indep (xdim ydim i j : ℕ) {t t' : ℕ}
    (ht : t < 2) (ht' : t' < 2) :
    StommelFD.V xdim ydim i j t = StommelFD.V xdim ydim i j t' := by
  simp only [StommelFD.V]
  by_cases h : 1 ≤ i ∧ i + 1 < xdim ∧ j < ydim
  · rw [if_pos ⟨h.1, h.2.1, h.2.2, ht⟩, if_pos ⟨h.1, h.2.1, h.2.2, ht'⟩,
      stommelFD_P_time_indep xdim ydim (i + 1) j ht ht',
      stommelFD_P_time_indep xdim ydim (i - 1) j ht ht']
  · rw [if_neg (by tauto), if_neg (by tauto)]

lemma stommelFD_U_time_indep (xdim ydim i j : ℕ) {t t' : ℕ}
    (ht : t < 2) (ht' : t' < 2) :
    StommelFD.U xdim ydim i j t = StommelFD.U xdim ydim i j t' := by
  simp only [StommelFD.U]
  by_cases h : i < xdim ∧ 1 ≤ j ∧ j + 1 < ydim
  · rw [if_pos ⟨h.1, h.2.1, h.2.2, ht⟩, if_pos ⟨h.1, h.2.1, h.2.2, ht'⟩,
      stommelFD_P_time_indep xdim ydim i (j + 1) ht ht',
      stommelFD_P_time_indep xdim ydim i (j - 1) ht ht']
  · rw [if_neg (by tauto), if_neg (by tauto)]

/-! ## Claims -/

lemma exp_mul_one_sub_le (x : ℝ) : Real.exp x * (1 - x) ≤ 1 := by
  have h := Real.add_one_le_exp (-x)
  have hp : (0 : ℝ) < Real.exp x := Real.exp_pos x
  have h3 : Real.exp x * Real.exp (-x) = 1 := by
    rw [← Real.exp_add]
    simp
  nlinarith [mul_le_mul_of_nonneg_left h (le_of_lt hp)]

lemma sqrt_discriminant_bounds :
    1.048 < Real.sqrt (1 + 4 * Real.pi ^ 2 * StommelFD.eps ^ 2)
    ∧ Real.sqrt (1 + 4 * Real.pi ^ 2 * StommelFD.eps ^ 2) < 1.0485 := by
  have hπl := Real.pi_gt_d2
  have hπu := Real.pi_lt_d2
  have hD1 : (1.098596 : ℝ) < 1 + 4 * Real.pi ^ 2 * StommelFD.eps ^ 2 := by
    simp only [StommelFD.eps]
    nlinarith
  have hD2 : 1 + 4 * Real.pi ^ 2 * StommelFD.eps ^ 2 < (1.099225 : ℝ) := by
    simp only [StommelFD.eps]
    nlinarith
  constructor
  · rw [Real.lt_sqrt (by norm_num)]
    nlinarith
  · rw [Real.sqrt_lt' (by norm_num)]
    nlinarith

lemma stommelFD_l_bounds :
    ((0.48 : ℝ) < StommelFD.l1 ∧ StommelFD.l1 < 0.485)
    ∧ ((-20.485 : ℝ) < StommelFD.l2 ∧ StommelFD.l2 < -20.48) := by
  obtain ⟨hs1, hs2⟩ := sqrt_discriminant_bounds
  simp only [StommelFD.l1, StommelFD.l2, StommelFD.eps] at *
  refine ⟨⟨?_, ?_⟩, ⟨?_, ?_⟩⟩
  · rw [lt_div_iff₀ (by norm_num)]
    nlinarith
  · rw [div_lt_iff₀ (by norm_num)]
    nlinarith
  · rw [lt_div_iff₀ (by norm_num)]
    nlinarith
  · rw [div_lt_iff₀ (by norm_num)]
    nlinarith

lemma stommelFD_exp_l1_bounds :
    (1.48 : ℝ) < Real.exp StommelFD.l1 ∧ Real.exp StommelFD.l1 < 1.9418 := by
  obtain ⟨⟨hl1a, hl1b⟩, hl2a, hl2b⟩ := stommelFD_l_bounds
  constructor
  · have h := Real.add_one_le_exp StommelFD.l1
    linarith
  · have h := exp_mul_one_sub_le StommelFD.l1
    have hp := Real.exp_pos StommelFD.l1
    nlinarith [mul_pos hp (show (0 : ℝ) < 0.485 - StommelFD.l1 by linarith)]

lemma stommelFD_exp_l2_bounds :
    (0 : ℝ) < Real.exp StommelFD.l2 ∧ Real.exp StommelFD.l2 < 0.0466 := by
  obtain ⟨⟨hl1a, hl1b⟩, hl2a, hl2b⟩ := stommelFD_l_bounds
  refine ⟨Real.exp_pos _, ?_⟩
  have h := exp_mul_one_sub_le StommelFD.l2
  nlinarith [mul_pos (Real.exp_pos StommelFD.l2)
    (show (0 : ℝ) < -20.48 - StommelFD.l2 by linarith)]

lemma stommelFD_exp_l1_xi_bounds :
    (1.192 : ℝ) < Real.exp (StommelFD.l1 * (2 / 5))
    ∧ Real.exp (StommelFD.l1 * (2 / 5)) < 1.2408 := by
  obtain ⟨⟨hl1a, hl1b⟩, hl2a, hl2b⟩ := stommelFD_l_bounds
  constructor
  · have h := Real.add_one_le_exp (StommelFD.l1 * (2 / 5))
    nlinarith
  · have h := exp_mul_one_sub_le (StommelFD.l1 * (2 / 5))
    have hp := Real.exp_pos (StommelFD.l1 * (2 / 5))
    nlinarith [mul_pos hp (show (0 : ℝ) < 0.194 - StommelFD.l1 * (2 / 5) by nlinarith)]

lemma stommelFD_exp_l2_xi_bounds :
    (0 : ℝ) < Real.exp (StommelFD.l2 * (2 / 5))
    ∧ Real.exp (StommelFD.l2 * (2 / 5)) < 0.1088 := by
  obtain ⟨⟨hl1a, hl1b⟩, hl2a, hl2b⟩ := stommelFD_l_bounds
  refine ⟨Real.exp_pos _, ?_⟩
  have h := exp_mul_one_sub_le (StommelFD.l2 * (2 / 5))
  nlinarith [mul_pos (Real.exp_pos (StommelFD.l2 * (2 / 5)))
    (show (0 : ℝ) < -8.192 - StommelFD.l2 * (2 / 5) by nlinarith)]

lemma stommelFD_c_bounds :
    ((-0.7 : ℝ) < StommelFD.c1 ∧ StommelFD.c1 < -0.49)
    ∧ ((-0.51 : ℝ) < StommelFD.c2 ∧ StommelFD.c2 < -0.3) := by
  obtain ⟨hEv1, hEv2⟩ := stommelFD_exp_l1_bounds
  obtain ⟨hev1, hev2⟩ := stommelFD_exp_l2_bounds
  have hden : Real.exp StommelFD.l2 - Real.exp StommelFD.l1 < 0 := by linarith
  have hc1_lo : (-0.7 : ℝ) < StommelFD.c1 := by
    simp only [StommelFD.c1]
    rw [lt_div_iff_of_neg hden]
    nlinarith
  have hc1_hi : StommelFD.c1 < -0.49 := by
    simp only [StommelFD.c1]
    rw [div_lt_iff_of_neg hden]
    nlinarith
  refine ⟨⟨hc1_lo, hc1_hi⟩, ?_, ?_⟩ <;> simp only [StommelFD.c2] <;> linarith

lemma stommelFD_P_interior_pos : 0 < StommelFD.P 6 3 2 1 0 := by
  obtain ⟨⟨hc1_lo, hc1_hi⟩, hc2_lo, hc2_hi⟩ := stommelFD_c_bounds
  obtain ⟨hE1a, hE1b⟩ := stommelFD_exp_l1_xi_bounds
  obtain ⟨hE2a, hE2b⟩ := stommelFD_exp_l2_xi_bounds
  have hx2 : linspace 0 StommelFD.a 6 2 / StommelFD.a = 2 / 5 := by
    simp only [linspace, StommelFD.a]
    norm_num
  have hy1 : linspace 0 StommelFD.b 3 1 / StommelFD.b = 1 / 2 := by
    simp only [linspace, StommelFD.b]
    norm_num
  have hP : StommelFD.P 6 3 2 1 0
      = 100 * (StommelFD.c1 * Real.exp (StommelFD.l1 * (2 / 5))
        + StommelFD.c2 * Real.exp (StommelFD.l2 * (2 / 5)) + 1) := by
    simp only [StommelFD.P, StommelFD.A]
    rw [if_pos (by omega : (2 : ℕ) < 6 ∧ (1 : ℕ) < 3 ∧ (0 : ℕ) < 2), hx2, hy1,
      show Real.pi * (1 / 2 : ℝ) = Real.pi / 2 by ring, Real.sin_pi_div_two, mul_one]
  rw [hP]
  have k1 : 1.2408 * StommelFD.c1 < StommelFD.c1 * Real.exp (StommelFD.l1 * (2 / 5)) := by
    nlinarith [mul_pos (show (0 : ℝ) < -StommelFD.c1 by linarith)
      (show (0 : ℝ) < 1.2408 - Real.exp (StommelFD.l1 * (2 / 5)) by linarith)]
  have k2 : 0.1088 * StommelFD.c2 < StommelFD.c2 * Real.exp (StommelFD.l2 * (2 / 5)) := by
    nlinarith [mul_pos (show (0 : ℝ) < -StommelFD.c2 by linarith)
      (show (0 : ℝ) < 0.1088 - Real.exp (StommelFD.l2 * (2 / 5)) by linarith)]
  nlinarith [k1, k2, hc1_lo, hc2_lo]

/-- C1 counterexample: at `xdim = 6`, `ydim = 3`, `t = 0` the claim's
formula is false: the spec divides the centered difference by the real
quotient `2*a/xdim = 10000/3`, but the Python 2 source divides by the
integer floor quotient `20000 // 6 = 3333`, and at `i = 0`, `j = 1`
the difference `P[2,1,0] - P[0,1,0]` is strictly positive, so the two
values differ. -/
theorem stommel_fd_real_division_cex : ¬ SpecSide.stommelFD_property 6 3 0 := by
  intro h
  obtain ⟨-, hV, -⟩ := h
  have hV1 := hV 0 1 (by omega) (by omega)
  simp only [zero_add] at hV1
  have hP0 : StommelFD.P 6 3 0 1 0 = 0 := by
    simp only [StommelFD.P, StommelFD.c2]
    rw [if_pos (by omega : (0 : ℕ) < 6 ∧ (1 : ℕ) < 3 ∧ (0 : ℕ) < 2)]
    have hz : linspace 0 StommelFD.a 6 0 / StommelFD.a = 0 := by
      simp only [linspace, StommelFD.a]
      norm_num
    rw [hz]
    simp only [mul_zero, Real.exp_zero]
    ring
  have hVval : StommelFD.V 6 3 1 1 0 = StommelFD.P 6 3 2 1 0 / 3333 := by
    simp only [StommelFD.V, StommelFD.aInt]
    rw [if_pos (by omega : 1 ≤ 1 ∧ 1 + 1 < 6 ∧ 1 < 3 ∧ 0 < 2)]
    norm_num [hP0]
  have hpos := stommelFD_P_interior_pos
  rw [hVval, hP0, sub_zero] at hV1
  have h6 : (2 * 10000 / ((6 : ℕ) : ℝ)) = 10000 / 3 := by norm_num
  rw [h6, div_eq_div_iff (by norm_num) (by norm_num)] at hV1
  nlinarith [hV1, hpos]

/-- C1 (amended): for every `3 ≤ xdim ≤ 20000`, `3 ≤ ydim ≤ 20000` and
every time index `t`, the streamfunction-form stommel generator
computes `P[i,j,t] = A*(c1*exp(l1*xi) + c2*exp(l2*xi) + 1)*sin(pi*yi)`
with the constants of the spec, and derives the velocities by centered
differencing with the Python 2 integer floor divisors:
`V[i+1,j,t] = (P[i+2,j,t] - P[i,j,t]) / (20000 // xdim)` for
`0 ≤ i ≤ xdim-3` and `U[i,j+1,t] = -(P[i,j+2,t] - P[i,j,t]) / (20000 // ydim)`
for `0 ≤ j ≤ ydim-3`. -/
theorem stommel_fd_matches_floored_spec_formula (xdim ydim t : ℕ)
    (hx : 3 ≤ xdim) (hx2 : xdim ≤ 20000) (hy : 3 ≤ ydim) (hy2 : ydim ≤ 20000)
    (ht : t < 2) :
    SpecSide.stommelFD_property_floored xdim ydim t := by
  refine ⟨fun i j hi hj => ?_, fun i j hi hj => ?_, fun i j hi hj => ?_⟩
  · simp only [StommelFD.P, StommelFD.A, StommelFD.eps, StommelFD.a,
      StommelFD.b, StommelFD.l1, StommelFD.l2, StommelFD.c1, StommelFD.c2]
    rw [if_pos ⟨hi, hj, ht⟩]
  · simp only [StommelFD.V, StommelFD.aInt]
    rw [if_pos ⟨Nat.le_add_left 1 i, by omega, hj, ht⟩,
      show i + 1 + 1 = i + 2 by omega, show i + 1 - 1 = i by omega]
  · simp only [StommelFD.U, StommelFD.bInt]
    rw [if_pos ⟨hi, Nat.le_add_left 1 j, by omega, ht⟩,
      show j + 1 + 1 = j + 2 by omega, show j + 1 - 1 = j by omega]

/-- Witness for C1 (amended) at `xdim = ydim = 3`, `t = 0`. -/
theorem stommel_fd_matches_floored_spec_formula_witness :
    (3 ≤ 3 ∧ 3 ≤ 20000 ∧ 0 < 2) ∧ SpecSide.stommelFD_property_floored 3 3 0 :=
  ⟨by omega, stommel_fd_matches_floored_spec_formula 3 3 0
    (by omega) (by omega) (by omega) (by omega) (by omega)⟩

/-- C2: for every `xdim, ydim ≥ 3`, the boundary rows of `U` (`j = 0`
and `j = ydim-1`) and the boundary columns of `V` (`i = 0` and
`i = xdim-1`) of the streamfunction-form stommel grid are exactly
zero. -/
theorem stommel_fd_boundary_rows_zero (xdim ydim : ℕ)
    (hx : 3 ≤ xdim) (hy : 3 ≤ ydim) (i j t : ℕ)
    (hi : i < xdim) (hj : j < ydim) (ht : t < 2) :
    StommelFD.U xdim ydim i 0 t = 0
    ∧ StommelFD.U xdim ydim i (ydim - 1) t = 0
    ∧ StommelFD.V xdim ydim 0 j t = 0
    ∧ StommelFD.V xdim ydim (xdim - 1) j t = 0 := by
  refine ⟨?_, ?_, ?_, ?_⟩
  · simp only [StommelFD.U]; rw [if_neg (by omega)]
  · simp only [StommelFD.U]; rw [if_neg (by omega)]
  · simp only [StommelFD.V]; rw [if_neg (by omega)]
  · simp only [StommelFD.V]; rw [if_neg (by omega)]

/-- Witness for C2 at `xdim = ydim = 3`, `i = j = 1`, `t = 0`. -/
theorem stommel_fd_boundary_rows_zero_witness :
    (3 ≤ 3 ∧ 1 < 3 ∧ 0 < 2)
    ∧ (StommelFD.U 3 3 1 0 0 = 0 ∧ StommelFD.U 3 3 1 (3 - 1) 0 = 0
       ∧ StommelFD.V 3 3 0 1 0 = 0 ∧ StommelFD.V 3 3 (3 - 1) 1 0 = 0) :=
  ⟨by omega, stommel_fd_boundary_rows_zero 3 3 (by omega) (by omega) 1 1 0
    (by omega) (by omega) (by omega)⟩

/-- C10: the streamfunction-form stommel fields are time-independent:
at every spatial index the `P`, `U` and `V` values at time index 0
equal those at time index 1. -/
theorem stommel_fd_fields_time_independent (xdim ydim i j : ℕ) :
    StommelFD.P xdim ydim i j 0 = StommelFD.P xdim ydim i j 1
    ∧ StommelFD.U xdim ydim i j 0 = StommelFD.U xdim ydim i j 1
    ∧ StommelFD.V xdim ydim i j 0 = StommelFD.V xdim ydim i j 1 :=
  ⟨stommelFD_P_time_indep xdim ydim i j (by omega) (by omega),
   stommelFD_U_time_indep xdim ydim i j (by omega) (by omega),
   stommelFD_V_time_indep xdim ydim i j (by omega) (by omega)⟩

lemma arangeLen_days (s n : ℤ) :
    arangeLen ((s : ℝ) * 86400) (((s + n : ℤ) : ℝ) * 86400) 86400 = n.toNat := by
  unfold arangeLen
  have h : ((((s + n : ℤ) : ℝ) * 86400 - (s : ℝ) * 86400) / 86400) = ((n : ℤ) : ℝ) := by
    push_cast
    ring
  rw [h, Int.ceil_intCast]
  omega

/-- C3: for every `xdim, ydim`, every grid index and both time indices,
the exponential-boundary-layer stommel generator produces exactly the
spec's `U` and `V` formulas with `e_s = r/(beta*a)`, `r = 1/(11.6*86400)`,
`beta = 2e-11`, `a = 2e6`, and the fields are identical across the two
time samples. -/
theorem stommel_exp_matches_spec_formula (xdim ydim : ℕ) :
    SpecSide.stommelExp_property xdim ydim := by
  refine ⟨fun i j t hi hj ht => ?_, fun i j t hi hj ht => ?_, fun i j => ⟨?_, ?_⟩⟩
  · simp only [StommelExp.U, StommelExp.e_s, StommelExp.r, StommelExp.day,
      StommelExp.beta, StommelExp.a]
    rw [if_pos ⟨hi, hj, ht⟩]
  · simp only [StommelExp.V, StommelExp.e_s, StommelExp.r, StommelExp.day,
      StommelExp.beta, StommelExp.a]
    rw [if_pos ⟨hi, hj, ht⟩]
  · simp only [StommelExp.U]
    by_cases h : i < xdim ∧ j < ydim
    · rw [if_pos ⟨h.1, h.2, by omega⟩, if_pos ⟨h.1, h.2, by omega⟩]
    · rw [if_neg (by tauto), if_neg (by tauto)]
  · simp only [StommelExp.V]
    by_cases h : i < xdim ∧ j < ydim
    · rw [if_pos ⟨h.1, h.2, by omega⟩, if_pos ⟨h.1, h.2, by omega⟩]
    · rw [if_neg (by tauto), if_neg (by tauto)]

/-- C4: scenario A (`simple_grid`): `U[:, :, t]` equals `time[t]/86400`
at every spatial index, `V` is identically zero, and the `P` field is
present and identically zero. -/
theorem simple_grid_field_values (xdim ydim : ℕ) (ndays startday : ℤ)
    (hx : 1 ≤ xdim) (hy : 1 ≤ ydim) (hn : 1 ≤ ndays) (t : ℕ)
    (ht : t < (MultiFilename.simple_grid xdim ydim ndays startday).timeLen) :
    (∀ i j, i < xdim → j < ydim →
      (MultiFilename.simple_grid xdim ydim ndays startday).U.val i j t
        = (MultiFilename.simple_grid xdim ydim ndays startday).time t / 86400)
    ∧ (∀ i j t', (MultiFilename.simple_grid xdim ydim ndays startday).V.val i j t' = 0)
    ∧ ((MultiFilename.simple_grid xdim ydim ndays startday).P).isSome = true
    ∧ (∀ p, (MultiFilename.simple_grid xdim ydim ndays startday).P = some p →
        ∀ i j t', p.val i j t' = 0) := by
  refine ⟨fun i j hi hj => ?_, fun i j t' => rfl, rfl, fun p hp i j t' => ?_⟩
  · simp only [MultiFilename.simple_grid] at ht ⊢
    rw [if_pos ⟨hi, hj, ht⟩]
  · simp only [MultiFilename.simple_grid] at hp
    injection hp with h
    subst h
    rfl

/-- Witness for C4 at `xdim = ydim = 1`, `ndays = 1`, `startday = 0`,
`t = 0`. -/
theorem simple_grid_field_values_witness :
    (1 ≤ 1 ∧ (1 : ℤ) ≤ 1 ∧ 0 < (MultiFilename.simple_grid 1 1 1 0).timeLen)
    ∧ ((∀ i j, i < 1 → j < 1 →
        (MultiFilename.simple_grid 1 1 1 0).U.val i j 0
          = (MultiFilename.simple_grid 1 1 1 0).time 0 / 86400)
      ∧ (∀ i j t', (MultiFilename.simple_grid 1 1 1 0).V.val i j t' = 0)
      ∧ ((MultiFilename.simple_grid 1 1 1 0).P).isSome = true
      ∧ (∀ p, (MultiFilename.simple_grid 1 1 1 0).P = some p →
          ∀ i j t', p.val i j t' = 0)) := by
  have hlen : (MultiFilename.simple_grid 1 1 1 0).timeLen = (1 : ℤ).toNat :=
    arangeLen_days 0 1
  exact ⟨⟨le_refl 1, le_refl 1, by omega⟩,
    simple_grid_field_values 1 1 1 0 (le_refl 1) (le_refl 1) (le_refl 1) 0 (by omega)⟩

/-- C5: the time axis of `simple_grid` has exactly `ndays` samples,
starts at `startday * 86400` seconds, and has spacing 86400 seconds. -/
theorem simple_grid_time_axis (xdim ydim : ℕ) (ndays startday : ℤ)
    (hn : 1 ≤ ndays) :
    ((MultiFilename.simple_grid xdim ydim ndays startday).timeLen : ℤ) = ndays
    ∧ (MultiFilename.simple_grid xdim ydim ndays startday).time 0
        = (startday : ℝ) * 86400
    ∧ (∀ t : ℕ, (MultiFilename.simple_grid xdim ydim ndays startday).time (t + 1)
        - (MultiFilename.simple_grid xdim ydim ndays startday).time t = 86400) := by
  refine ⟨?_, ?_, fun t => ?_⟩
  · have h : (MultiFilename.simple_grid xdim ydim ndays startday).timeLen
        = arangeLen ((startday : ℝ) * 86400) (((startday + ndays : ℤ) : ℝ) * 86400)
            86400 := rfl
    rw [h, arangeLen_days]
    omega
  · show arange ((startday : ℝ) * 86400) 86400 0 = (startday : ℝ) * 86400
    simp [arange]
  · show arange ((startday : ℝ) * 86400) 86400 (t + 1)
        - arange ((startday : ℝ) * 86400) 86400 t = 86400
    simp only [arange]
    push_cast
    ring

/-- Witness for C5 at `ndays = 3`, `startday = 2`. -/
theorem simple_grid_time_axis_witness :
    (1 : ℤ) ≤ 3
    ∧ (((MultiFilename.simple_grid 200 350 3 2).timeLen : ℤ) = 3
      ∧ (MultiFilename.simple_grid 200 350 3 2).time 0 = ((2 : ℤ) : ℝ) * 86400
      ∧ (∀ t : ℕ, (MultiFilename.simple_grid 200 350 3 2).time (t + 1)
          - (MultiFilename.simple_grid 200 350 3 2).time t = 86400)) :=
  ⟨by omega, simple_grid_time_axis 200 350 3 2 (by omega)⟩

/-- C6 counterexample: at the non-positive dimension `xdim = 0` neither
`simple_grid` nor the stommel generators signal an invalid-parameter
error — construction succeeds and returns (empty) arrays. -/
theorem synthesizers_accept_zero_dim_cex :
    exceptOk (checked (fun x y => MultiFilename.simple_grid x y 25 0) 0 350) = true
    ∧ exceptOk (checked StommelFD.stommel_grid 0 200) = true
    ∧ exceptOk (checked StommelExp.stommel_grid 0 200) = true := by
  refine ⟨?_, ?_, ?_⟩ <;> rfl

/-- C6 amended: the synthesizers perform no validation of their own;
the only invalid-parameter signal is numpy's `ValueError` from
`np.linspace`, raised exactly for a negative dimension (zero dimensions
are accepted silently), and the hardcoded `eps = 0.05` has a positive
discriminant `1 + 4*pi^2*eps^2`, so the roots `l1, l2` are always
real. -/
theorem synthesizers_error_iff_negative_dims (xdim ydim ndays startday : ℤ) :
    (exceptOk (checked (fun x y => MultiFilename.simple_grid x y ndays startday)
        xdim ydim) = false ↔ xdim < 0 ∨ ydim < 0)
    ∧ (exceptOk (checked StommelFD.stommel_grid xdim ydim) = false
        ↔ xdim < 0 ∨ ydim < 0)
    ∧ (exceptOk (checked StommelExp.stommel_grid xdim ydim) = false
        ↔ xdim < 0 ∨ ydim < 0)
    ∧ 0 < 1 + 4 * Real.pi ^ 2 * StommelFD.eps ^ 2 := by
  refine ⟨?_, ?_, ?_, by positivity⟩ <;>
    by_cases h : xdim < 0 ∨ ydim < 0 <;>
      simp [checked, exceptOk, h]

/-- C7 counterexample: `simple_grid` with `ndays = 1` (used by the
`multi_filename` test itself) has a time axis of length 1, not ≥ 2. -/
theorem simple_grid_single_day_time_axis_cex :
    ¬ (2 ≤ (MultiFilename.simple_grid 200 350 1 0).timeLen) := by
  have h : (MultiFilename.simple_grid 200 350 1 0).timeLen = (1 : ℤ).toNat :=
    arangeLen_days 0 1
  omega

/-- C7 amended: every synthesized grid has a depth axis of length
exactly 1; the two stommel grids have a time axis of length exactly 2,
while `simple_grid`'s time axis has length `ndays` (hence ≥ 2 only when
`ndays ≥ 2`). -/
theorem grids_depth_and_time_lengths (xdim ydim : ℕ) (ndays startday : ℤ) :
    (MultiFilename.simple_grid xdim ydim ndays startday).timeLen = ndays.toNat
    ∧ (MultiFilename.simple_grid xdim ydim ndays startday).depthLen = 1
    ∧ (StommelFD.stommel_grid xdim ydim).timeLen = 2
    ∧ (StommelFD.stommel_grid xdim ydim).depthLen = 1
    ∧ (StommelExp.stommel_grid xdim ydim).timeLen = 2
    ∧ (StommelExp.stommel_grid xdim ydim).depthLen = 1 := by
  refine ⟨?_, rfl, rfl, rfl, rfl, rfl⟩
  exact arangeLen_days startday ndays

/-- C9: in every synthesized grid, `U`, `V` (and `P` when present) have
the identical shape `(xdim, ydim, tdim)` and are defined over identical
longitude and latitude axes. -/
theorem grids_fields_share_shape_axes (xdim ydim : ℕ) (ndays startday : ℤ) :
    (((MultiFilename.simple_grid xdim ydim ndays startday).U.xdim,
      (MultiFilename.simple_grid xdim ydim ndays startday).U.ydim,
      (MultiFilename.simple_grid xdim ydim ndays startday).U.tdim)
        = (xdim, ydim, (MultiFilename.simple_grid xdim ydim ndays startday).timeLen)
      ∧ ((MultiFilename.simple_grid xdim ydim ndays startday).V.xdim,
         (MultiFilename.simple_grid xdim ydim ndays startday).V.ydim,
         (MultiFilename.simple_grid xdim ydim ndays startday).V.tdim)
        = (xdim, ydim, (MultiFilename.simple_grid xdim ydim ndays startday).timeLen)
      ∧ (MultiFilename.simple_grid xdim ydim ndays startday).V.lon
          = (MultiFilename.simple_grid xdim ydim ndays startday).U.lon
      ∧ (MultiFilename.simple_grid xdim ydim ndays startday).V.lat
          = (MultiFilename.simple_grid xdim ydim ndays startday).U.lat
      ∧ ((MultiFilename.simple_grid xdim ydim ndays startday).P).elim True
          (fun p => (p.xdim, p.ydim, p.tdim)
              = (xdim, ydim, (MultiFilename.simple_grid xdim ydim ndays startday).timeLen)
            ∧ p.lon = (MultiFilename.simple_grid xdim ydim ndays startday).U.lon
            ∧ p.lat = (MultiFilename.simple_grid xdim ydim ndays startday).U.lat))
    ∧ (((StommelFD.stommel_grid xdim ydim).U.xdim,
        (StommelFD.stommel_grid xdim ydim).U.ydim,
        (StommelFD.stommel_grid xdim ydim).U.tdim)
        = (xdim, ydim, (StommelFD.stommel_grid xdim ydim).timeLen)
      ∧ ((StommelFD.stommel_grid xdim ydim).V.xdim,
         (StommelFD.stommel_grid xdim ydim).V.ydim,
         (StommelFD.stommel_grid xdim ydim).V.tdim)
        = (xdim, ydim, (StommelFD.stommel_grid xdim ydim).timeLen)
      ∧ (StommelFD.stommel_grid xdim ydim).V.lon
          = (StommelFD.stommel_grid xdim ydim).U.lon
      ∧ (StommelFD.stommel_grid xdim ydim).V.lat
          = (StommelFD.stommel_grid xdim ydim).U.lat
      ∧ ((StommelFD.stommel_grid xdim ydim).P).elim True
          (fun p => (p.xdim, p.ydim, p.tdim)
              = (xdim, ydim, (StommelFD.stommel_grid xdim ydim).timeLen)
            ∧ p.lon = (StommelFD.stommel_grid xdim ydim).U.lon
            ∧ p.lat = (StommelFD.stommel_grid xdim ydim).U.lat))
    ∧ (((StommelExp.stommel_grid xdim ydim).U.xdim,
        (StommelExp.stommel_grid xdim ydim).U.ydim,
        (StommelExp.stommel_grid xdim ydim).U.tdim)
        = (xdim, ydim, (StommelExp.stommel_grid xdim ydim).timeLen)
      ∧ ((StommelExp.stommel_grid xdim ydim).V.xdim,
         (StommelExp.stommel_grid xdim ydim).V.ydim,
         (StommelExp.stommel_grid xdim ydim).V.tdim)
        = (xdim, ydim, (StommelExp.stommel_grid xdim ydim).timeLen)
      ∧ (StommelExp.stommel_grid xdim ydim).V.lon
          = (StommelExp.stommel_grid xdim ydim).U.lon
      ∧ (StommelExp.stommel_grid xdim ydim).V.lat
          = (StommelExp.stommel_grid xdim ydim).U.lat
      ∧ ((StommelExp.stommel_grid xdim ydim).P).elim True
          (fun p => (p.xdim, p.ydim, p.tdim)
              = (xdim, ydim, (StommelExp.stommel_grid xdim ydim).timeLen)
            ∧ p.lon = (StommelExp.stommel_grid xdim ydim).U.lon
            ∧ p.lat = (StommelExp.stommel_grid xdim ydim).U.lat)) :=
  ⟨⟨rfl, rfl, rfl, rfl, ⟨rfl, rfl, rfl⟩⟩,
   ⟨rfl, rfl, rfl, rfl, ⟨rfl, rfl, rfl⟩⟩,
   ⟨rfl, rfl, rfl, rfl, trivial⟩⟩

lemma fetchAll_foldl_skips_existing (net : PullData.Net) (url path : String) :
    ∀ (filenames : List String) (fs : PullData.FS) (c : ℕ),
      (∀ fn ∈ filenames, (fs (path ++ "/" ++ fn)).isSome = true) →
      filenames.foldl (fun st fn => PullData.fetchOne net url path fn st) (fs, c)
        = (fs, c) := by
  intro filenames
  induction filenames with
  | nil => intro fs c _; rfl
  | cons fn rest ih =>
    intro fs c h
    have hfn : (fs (path ++ "/" ++ fn)).isSome = true := h fn (List.mem_cons_self fn rest)
    obtain ⟨v, hv⟩ := Option.isSome_iff_exists.mp hfn
    have hstep : PullData.fetchOne net url path fn (fs, c) = (fs, c) := by
      simp only [PullData.fetchOne, hv]
    rw [List.foldl_cons, hstep]
    exact ih fs c (fun g hg => h g (List.mem_cons_of_mem fn hg))

lemma fetchAll_skips_existing (net : PullData.Net) (url path : String)
    (filenames : List String) (fs : PullData.FS)
    (h : ∀ fn ∈ filenames, (fs (path ++ "/" ++ fn)).isSome = true) :
    PullData.fetchAll net url path filenames fs = (fs, 0) :=
  fetchAll_foldl_skips_existing net url path filenames fs 0 h

/-- C8: for each dataset-fetch function, if every file of its file list
already exists in the target directory, re-running performs zero
network requests and leaves the filesystem unchanged (no file is
written). -/
theorem pull_data_idempotent (net : PullData.Net) (fs1 fs2 fs3 : PullData.FS)
    (h1 : ∀ fn ∈ PullData.movingEddiesFilenames,
      (fs1 ("examples/MovingEddies_data" ++ "/" ++ fn)).isSome = true)
    (h2 : ∀ fn ∈ PullData.globcurrentFilenames,
      (fs2 ("examples/GlobCurrent_example_data" ++ "/" ++ fn)).isSome = true)
    (h3 : ∀ fn ∈ PullData.ofamFilenames,
      (fs3 ("examples/OFAM_example_data" ++ "/" ++ fn)).isSome = true) :
    PullData.import_MovingEddies_example net fs1 = (fs1, 0)
    ∧ PullData.import_globcurrent_example net fs2 = (fs2, 0)
    ∧ PullData.import_OFAM_example net fs3 = (fs3, 0) :=
  ⟨fetchAll_skips_existing net _ _ _ fs1 h1,
   fetchAll_skips_existing net _ _ _ fs2 h2,
   fetchAll_skips_existing net _ _ _ fs3 h3⟩

/-- Witness for C8: on a filesystem where every path is populated, all
three fetch functions are no-ops with zero requests. -/
theorem pull_data_idempotent_witness :
    PullData.import_MovingEddies_example (fun _ => []) (fun _ => some []) = (fun _ => some [], 0)
    ∧ PullData.import_globcurrent_example (fun _ => []) (fun _ => some []) = (fun _ => some [], 0)
    ∧ PullData.import_OFAM_example (fun _ => []) (fun _ => some []) = (fun _ => some [], 0) :=
  pull_data_idempotent (fun _ => []) (fun _ => some []) (fun _ => some []) (fun _ => some [])
    (fun _ _ => rfl) (fun _ _ => rfl) (fun _ _ => rfl)

end Parcels
